import Mathlib

/-!
# MarketFace-web3 anchoring backend — verification development

Shallow embedding of the Express/ethers NFT anchoring backend
(`src/index.js` and the near-duplicate variant `src/unnamed/part_000`).

The embedding models:
* the commitment hash `ethers.keccak256(ethers.toUtf8Bytes(s))` as a full
  Keccak-256 implementation over the UTF-8 encoding of the reference string
  (`hashBinder`);
* the ledger calls the backend constructs (`safeMint`, `commitEvolution`)
  and a ledger state that stores what was submitted;
* the `mintNFT` receipt parsing of the `part_000` variant (Transfer-event
  scan with the `"unknown"` fallback);
* every HTTP handler of both variants as a pure function from the parsed
  request plus the outcomes of the external adapters (Pinata uploads,
  `JSON.parse`, contract calls) to an HTTP response together with the
  ordered list of external side effects the handler performs.

Bytes are modelled as `Nat` values below 256 and 64-bit lanes as `Nat`
values below `2 ^ 64`, with explicit masking where overflow matters.
-/

namespace MarketFace

/-! ## Keccak-256 (the hash behind `ethers.keccak256`) -/

/-- 64-bit left rotation on a `Nat` lane below `2 ^ 64`. -/
def rotl64 (x n : Nat) : Nat :=
  ((x <<< n) % (2 ^ 64)) ||| (x >>> (64 - n))

/-- One step of the degree-8 LFSR of FIPS 202 (`rc`): the output bit and
the updated register. -/
def lfsrStep (r : Nat) : Nat × Nat :=
  (r &&& 1,
   if r &&& 0x80 != 0 then ((r <<< 1) ^^^ 0x71) &&& 0xFF else (r <<< 1) &&& 0xFF)

/-- The Keccak-f[1600] round constants, generated from the LFSR: round
constant bits sit at positions `2 ^ j - 1` for `j = 0..6`. -/
def roundConstantsAux : Nat → Nat → List Nat
  | 0, _ => []
  | n + 1, r =>
    let step := (List.range 7).foldl
      (fun (st : Nat × Nat) j =>
        let bit := (lfsrStep st.2).1
        let reg := (lfsrStep st.2).2
        (st.1 ^^^ (bit <<< (2 ^ j - 1)), reg))
      (0, r)
    step.1 :: roundConstantsAux n step.2

/-- The 24 Keccak-f[1600] round constants, register seeded with 1. -/
def roundConstants : List Nat :=
  roundConstantsAux 24 1

/-- The ρ rotation amounts as (lane index, offset) pairs: the walk starts
at lane (1,0), steps by `(x,y) ↦ (y, 2x+3y mod 5)`, and the t-th visited
lane rotates by the triangular number `(t+1)(t+2)/2 mod 64`. -/
def rhoPairs : List (Nat × Nat) :=
  ((List.range 24).foldl
    (fun (st : (Nat × Nat) × List (Nat × Nat)) t =>
      let x := st.1.1
      let y := st.1.2
      ((y, (2 * x + 3 * y) % 5),
       (x + 5 * y, ((t + 1) * (t + 2) / 2) % 64) :: st.2))
    ((1, 0), [])).2

/-- Rotation offsets for the ρ step, indexed by `x + 5 * y` (lane (0,0),
never visited by the walk, keeps offset 0). -/
def rotOffsets : List Nat :=
  (List.range 25).map fun i => (rhoPairs.lookup i).getD 0

/-- Lane `(x, y)` of a 25-lane state held as a flat list. -/
def lane (st : List Nat) (x y : Nat) : Nat :=
  st.getD (x + 5 * y) 0

/-- θ step of Keccak-f. -/
def theta (st : List Nat) : List Nat :=
  let c := fun x => lane st x 0 ^^^ lane st x 1 ^^^ lane st x 2 ^^^ lane st x 3 ^^^ lane st x 4
  let d := fun x => c ((x + 4) % 5) ^^^ rotl64 (c ((x + 1) % 5)) 1
  (List.range 25).map fun i => st.getD i 0 ^^^ d (i % 5)

/-- Combined ρ (rotate) and π (permute) steps of Keccak-f. -/
def rhoPi (st : List Nat) : List Nat :=
  (List.range 25).foldl
    (fun b i =>
      let x := i % 5
      let y := i / 5
      b.set (y + 5 * ((2 * x + 3 * y) % 5)) (rotl64 (lane st x y) (rotOffsets.getD i 0)))
    (List.replicate 25 0)

/-- χ step of Keccak-f; complement within a lane is xor with the 64-bit mask. -/
def chi (b : List Nat) : List Nat :=
  (List.range 25).map fun i =>
    let x := i % 5
    let y := i / 5
    lane b x y ^^^ ((lane b ((x + 1) % 5) y ^^^ (2 ^ 64 - 1)) &&& lane b ((x + 2) % 5) y)

/-- ι step of Keccak-f: xor the round constant into lane 0. -/
def iota (rc : Nat) (st : List Nat) : List Nat :=
  st.set 0 (st.getD 0 0 ^^^ rc)

/-- One Keccak-f round. -/
def keccakRound (st : List Nat) (rc : Nat) : List Nat :=
  iota rc (chi (rhoPi (theta st)))

/-- The full Keccak-f[1600] permutation: 24 rounds. -/
def keccakF (st : List Nat) : List Nat :=
  roundConstants.foldl keccakRound st

/-- Keccak pad10*1 with domain byte `0x01` (original Keccak, as used by
Ethereum, not the SHA-3 `0x06` domain), rate 136 bytes. -/
def keccakPad (msg : List Nat) : List Nat :=
  let padLen := 136 - msg.length % 136
  if padLen = 1 then msg ++ [0x81]
  else msg ++ [0x01] ++ List.replicate (padLen - 2) 0 ++ [0x80]

/-- Little-endian interpretation of up to 8 bytes as a 64-bit lane. -/
def bytesToLane (bs : List Nat) : Nat :=
  bs.foldr (fun b acc => acc * 256 + b) 0

/-- Split a byte list into 136-byte rate blocks; the fuel argument bounds
the number of blocks and is supplied as the list length by `toBlocks`. -/
def toBlocksAux : Nat → List Nat → List (List Nat)
  | 0, _ => []
  | _, [] => []
  | fuel + 1, b :: rest => (b :: rest).take 136 :: toBlocksAux fuel ((b :: rest).drop 136)

/-- Split a byte list into 136-byte rate blocks. -/
def toBlocks (l : List Nat) : List (List Nat) :=
  toBlocksAux l.length l

/-- Absorb one 136-byte block: xor its 17 lanes into the state, permute. -/
def absorbBlock (st : List Nat) (block : List Nat) : List Nat :=
  let lanes := (List.range 17).map fun i => bytesToLane ((block.drop (8 * i)).take 8)
  keccakF ((List.range 25).map fun i => st.getD i 0 ^^^ lanes.getD i 0)

/-- Serialize one 64-bit lane into 8 little-endian bytes. -/
def laneToBytes (x : Nat) : List Nat :=
  (List.range 8).map fun i => (x >>> (8 * i)) % 256

/-- Squeeze the 32-byte digest: the first four lanes, little-endian. -/
def squeeze (st : List Nat) : List Nat :=
  laneToBytes (st.getD 0 0) ++ laneToBytes (st.getD 1 0) ++
  laneToBytes (st.getD 2 0) ++ laneToBytes (st.getD 3 0)

/-- Keccak-256 of a byte sequence: pad, absorb all blocks, squeeze 32 bytes. -/
def keccak256 (msg : List Nat) : List Nat :=
  squeeze ((toBlocks (keccakPad msg)).foldl absorbBlock (List.replicate 25 0))

/-! ## UTF-8 encoding (the model of `ethers.toUtf8Bytes`) -/

/-- UTF-8 encoding of a single Unicode code point. -/
def utf8EncodeChar (c : Nat) : List Nat :=
  if c < 0x80 then [c]
  else if c < 0x800 then
    [0xC0 ||| (c >>> 6), 0x80 ||| (c &&& 0x3F)]
  else if c < 0x10000 then
    [0xE0 ||| (c >>> 12), 0x80 ||| ((c >>> 6) &&& 0x3F), 0x80 ||| (c &&& 0x3F)]
  else
    [0xF0 ||| (c >>> 18), 0x80 ||| ((c >>> 12) &&& 0x3F),
     0x80 ||| ((c >>> 6) &&& 0x3F), 0x80 ||| (c &&& 0x3F)]

/-- UTF-8 encoding of a string, as a byte list. -/
def utf8Encode (s : String) : List Nat :=
  (s.data.map fun c => utf8EncodeChar c.toNat).flatten

/-- The commitment hash of the backend: both variants compute
`ethers.keccak256(ethers.toUtf8Bytes(metadataUri))` in `mintNFT` and
`evolveNFT`. The spec names this function HashBinder. -/
def hashBinder (s : String) : List Nat :=
  keccak256 (utf8Encode s)

/-! ## Ledger calls and ledger state

`mintNFT` submits `contract.safeMint(to, metadataUri, hash)` and `evolveNFT`
submits `contract.commitEvolution(tokenId, metadataUri, hash)`, where in both
variants `hash = ethers.keccak256(ethers.toUtf8Bytes(metadataUri))` is
computed on the line directly above the submission. -/

/-- A state-changing contract call the backend can construct. -/
inductive LedgerCall where
  | safeMint (toAddr : String) (uri : String) (hash : List Nat)
  | commitEvolution (tokenId : String) (uri : String) (hash : List Nat)
  deriving DecidableEq

/-- The `safeMint` call built by `mintNFT to metadataUri` (both variants):
the hash argument is the keccak-256 of the very `metadataUri` submitted. -/
def mintCall (toAddr metadataUri : String) : LedgerCall :=
  .safeMint toAddr metadataUri (hashBinder metadataUri)

/-- The `commitEvolution` call built by `evolveNFT tokenId metadataUri`
(both variants): the hash argument is the keccak-256 of the submitted URI. -/
def evolveCall (tokenId metadataUri : String) : LedgerCall :=
  .commitEvolution tokenId metadataUri (hashBinder metadataUri)

/-- A ledger-resident record: identifier, owner, current reference, current
commitment hash, exactly the fields the contract stores from a call. -/
structure ChainRecord where
  tokenId : String
  owner : String
  uri : String
  hash : List Nat
  deriving DecidableEq

/-- The ledger state visible to this system: a counter of assigned ids and
the list of confirmed records. -/
structure Chain where
  nextId : Nat
  minted : List ChainRecord
  deriving DecidableEq

/-- The empty ledger; ids are assigned from 1 as in the spec scenarios. -/
def chain0 : Chain := ⟨1, []⟩

/-- The ledger applies a confirmed call: `safeMint` assigns the next id and
stores the submitted pair, `commitEvolution` overwrites the stored pair of
the matching record. The ledger does not re-derive any hash. -/
def applyCall (st : Chain) : LedgerCall → Chain
  | .safeMint toAddr uri h =>
    ⟨st.nextId + 1, st.minted ++ [⟨toString st.nextId, toAddr, uri, h⟩]⟩
  | .commitEvolution tid uri h =>
    ⟨st.nextId, st.minted.map fun r =>
      if r.tokenId = tid then { r with uri := uri, hash := h } else r⟩

/-- The anchoring invariant: every confirmed record's stored hash is the
commitment hash of its current reference. -/
def ChainInv (st : Chain) : Prop :=
  ∀ r ∈ st.minted, r.hash = hashBinder r.uri

/-- A call is one the backend's code can construct: `mintNFT` or `evolveNFT`
output for some inputs. -/
def CodeCall (c : LedgerCall) : Prop :=
  (∃ toAddr uri, c = mintCall toAddr uri) ∨ (∃ tid uri, c = evolveCall tid uri)

/-! ## Receipts and the `part_000` variant of `mintNFT`

```js
const receipt = await tx.wait();
const event = receipt.logs.find(log => log.fragment?.name === "Transfer");
const tokenId = event ? ethers.getBigInt(event.args.tokenId).toString() : "unknown";
return { success: true, txHash: tx.hash, tokenId, metadataUri };
```
-/

/-- One entry of a receipt's event-log list: the decoded fragment name, when
ethers could decode it, and the decoded `tokenId` argument. -/
structure Log where
  fragmentName : Option String
  argsTokenId : Nat
  deriving DecidableEq

/-- A transaction receipt: the ordered list of emitted event logs. -/
structure Receipt where
  logs : List Log
  deriving DecidableEq

/-- The object literal `mintNFT` (variant `part_000`) resolves with. -/
structure MintResult where
  success : Bool
  txHash : String
  tokenId : String
  metadataUri : String
  deriving DecidableEq

/-- `receipt.logs.find(log => log.fragment?.name === "Transfer")`. -/
def findTransfer (logs : List Log) : Option Log :=
  logs.find? fun l => l.fragmentName == some "Transfer"

/-- `mintNFT` of variant `part_000`, after the transaction completed: parse
the receipt for the Transfer event; fall back to the string `"unknown"`.
The transaction hash and receipt are the ledger adapter's responses. -/
def mintNFT (toAddr metadataUri txHash : String) (receipt : Receipt) : MintResult :=
  let event := findTransfer receipt.logs
  let tokenId := match event with
    | some e => toString e.argsTokenId
    | none => "unknown"
  ⟨true, txHash, tokenId, metadataUri⟩

/-! ## JSON bodies, HTTP responses, and external effects -/

/-- JSON values, as far as the backend's bodies need them. -/
inductive JVal where
  | str (s : String)
  | nat (n : Nat)
  | bool (b : Bool)
  | arr (xs : List JVal)
  | obj (fields : List (String × JVal))

/-- Field lookup in a JSON object body. -/
def JVal.getField : JVal → String → Option JVal
  | .obj fs, k => fs.lookup k
  | _, _ => none

/-- An HTTP response: the status code and the JSON body sent. -/
structure HttpResponse where
  status : Nat
  body : JVal

/-- An external side effect a handler performs, in order: a Pinata file
upload, a Pinata JSON upload, or a contract call submission. -/
inductive Effect where
  | pinFile (fileName : String)
  | pinJSON (doc : JVal)
  | ledger (c : LedgerCall)

/-- JavaScript falsiness of an optional string field (`!x`): absent or
empty. -/
def falsy : Option String → Bool
  | none => true
  | some s => s == ""

/-- `{ error: msg }` — the failure body used by the mint handlers. -/
def jsonErr (msg : String) : JVal := .obj [("error", .str msg)]

/-- `{ success: false, error: msg }` — the failure body of the other
handlers. -/
def jsonFail (msg : String) : JVal :=
  .obj [("success", .bool false), ("error", .str msg)]

/-! ## The HTTP handlers

Each handler is a pure function of the parsed request together with the
outcomes of the external adapter calls it awaits (Pinata uploads, the
`JSON.parse` builtin, contract submission); it returns the response and the
ordered list of external side effects it performed. An adapter outcome
`.error msg` models the awaited call throwing with that message; the
enclosing `try`/`catch` turns it into the variant's failure response. -/

/-- The parsed JSON body of POST /mint: both fields may be absent. -/
structure MintRequest where
  toAddr : Option String
  metadataUri : Option String

/-- The parsed JSON body of POST /evolve/:tokenId (variant `part_000`). -/
structure EvolveRequest where
  metadataUri : Option String

/-- A multipart file upload as multer presents it. -/
structure FileUpload where
  originalname : String

/-- `res.json(result)` body of the `part_000` mint handler. -/
def MintResult.toJVal (r : MintResult) : JVal :=
  .obj [("success", .bool r.success), ("txHash", .str r.txHash),
        ("tokenId", .str r.tokenId), ("metadataUri", .str r.metadataUri)]

/-- POST /mint of `src/index.js`: validate `to`/`metadataUri` by JS
falsiness, then await `mintNFT` (this variant resolves with `tx.hash` only)
and answer `{success:true, txHash, metadataUri}`; a thrown error yields
`500 {error}`. -/
def mintHandlerV1 (req : MintRequest) (mintOutcome : Except String String) :
    HttpResponse × List Effect :=
  if falsy req.toAddr || falsy req.metadataUri then
    (⟨400, jsonErr "to and metadataUri are required"⟩, [])
  else
    let toAddr := req.toAddr.getD ""
    let uri := req.metadataUri.getD ""
    match mintOutcome with
    | .error e => (⟨500, jsonErr e⟩, [.ledger (mintCall toAddr uri)])
    | .ok tx =>
      (⟨200, .obj [("success", .bool true), ("txHash", .str tx),
                   ("metadataUri", .str uri)]⟩,
       [.ledger (mintCall toAddr uri)])

/-- POST /mint of `src/unnamed/part_000`: same validation, then
`res.json(await mintNFT(to, metadataUri))`; the adapter outcome carries the
transaction hash and receipt `mintNFT` goes on to parse. -/
def mintHandlerV2 (req : MintRequest)
    (outcome : Except String (String × Receipt)) : HttpResponse × List Effect :=
  if falsy req.toAddr || falsy req.metadataUri then
    (⟨400, jsonErr "to and metadataUri are required"⟩, [])
  else
    let toAddr := req.toAddr.getD ""
    let uri := req.metadataUri.getD ""
    match outcome with
    | .error e => (⟨500, jsonErr e⟩, [.ledger (mintCall toAddr uri)])
    | .ok (tx, receipt) =>
      (⟨200, (mintNFT toAddr uri tx receipt).toJVal⟩, [.ledger (mintCall toAddr uri)])

/-- POST /evolve/:tokenId of `src/unnamed/part_000`: JSON body, requires
`metadataUri` (400 before any work), then `evolveNFT` and
`{success:true, txHash, tokenId, metadataUri}`. -/
def evolveHandlerV2 (tokenId : String) (req : EvolveRequest)
    (outcome : Except String String) : HttpResponse × List Effect :=
  if falsy req.metadataUri then
    (⟨400, jsonErr "metadataUri is required"⟩, [])
  else
    let uri := req.metadataUri.getD ""
    match outcome with
    | .error e => (⟨500, jsonFail e⟩, [.ledger (evolveCall tokenId uri)])
    | .ok tx =>
      (⟨200, .obj [("success", .bool true), ("txHash", .str tx),
                   ("tokenId", .str tokenId), ("metadataUri", .str uri)]⟩,
       [.ledger (evolveCall tokenId uri)])

/-- `attributes ? JSON.parse(attributes) : dflt`: a falsy `attributes`
field yields the literal default, otherwise the `JSON.parse` builtin
(modelled by the `parseJson` oracle) runs and may throw. -/
def attrsValue (attributes : Option String)
    (parseJson : String → Except String JVal) (dflt : JVal) :
    Except String JVal :=
  if falsy attributes then .ok dflt
  else parseJson (attributes.getD "")

/-- Stands for the message of the TypeError Node raises when
`req.file.buffer` is read with `req.file` undefined (no file uploaded); the
exact host text is irrelevant to the claims. -/
def typeErrorNoFile : String :=
  "TypeError: cannot read buffer of undefined"

/-- POST /evolve/:tokenId of `src/index.js`: a multipart handler. It reads
`req.file.buffer` without a guard (no file → TypeError → 500), uploads the
image, builds the metadata document (parsing `attributes` only now),
uploads it, commits the evolution with reference `ipfs://metadataCid`, and
answers `{success:true, txHash, imageCid, metadataCid}`. It never reads a
`metadataUri` field. -/
def evolveHandlerV1 (tokenId : String) (file : Option FileUpload)
    (attributes : Option String) (uploadImage : Except String String)
    (parseJson : String → Except String JVal) (uploadJSON : Except String String)
    (evolveOutcome : Except String String) : HttpResponse × List Effect :=
  match file with
  | none => (⟨500, jsonFail typeErrorNoFile⟩, [])
  | some f =>
    match uploadImage with
    | .error e => (⟨500, jsonFail e⟩, [.pinFile f.originalname])
    | .ok imageCid =>
      match attrsValue attributes parseJson (.obj []) with
      | .error e => (⟨500, jsonFail e⟩, [.pinFile f.originalname])
      | .ok attrs =>
        let metadata : JVal := .obj
          [("name", .str ("Evolved NFT #" ++ tokenId)),
           ("description", .str "This NFT has evolved via AI."),
           ("image", .str ("ipfs://" ++ imageCid)),
           ("attributes", attrs)]
        match uploadJSON with
        | .error e => (⟨500, jsonFail e⟩, [.pinFile f.originalname, .pinJSON metadata])
        | .ok metadataCid =>
          let effs : List Effect :=
            [.pinFile f.originalname, .pinJSON metadata,
             .ledger (evolveCall tokenId ("ipfs://" ++ metadataCid))]
          match evolveOutcome with
          | .error e => (⟨500, jsonFail e⟩, effs)
          | .ok tx =>
            (⟨200, .obj [("success", .bool true), ("txHash", .str tx),
                         ("imageCid", .str imageCid),
                         ("metadataCid", .str metadataCid)]⟩, effs)

/-- `name || dflt` on an optional request field. -/
def valueOr (x : Option String) (dflt : String) : String :=
  if falsy x then dflt else x.getD ""

/-- POST /upload-image of `src/unnamed/part_000`: explicit `req.file` guard
(400 before any upload), then image upload, metadata assembly (parsing
`attributes` only after the image upload), metadata upload, success body
with both CIDs and the document. -/
def uploadImageHandler (file : Option FileUpload)
    (name description attributes : Option String)
    (uploadImage : Except String String)
    (parseJson : String → Except String JVal)
    (uploadJSON : Except String String) : HttpResponse × List Effect :=
  match file with
  | none =>
    (⟨400, jsonErr "No file uploaded. Field name must be 'file'."⟩, [])
  | some f =>
    match uploadImage with
    | .error e => (⟨500, jsonFail e⟩, [.pinFile f.originalname])
    | .ok imageCid =>
      match attrsValue attributes parseJson (.arr []) with
      | .error e => (⟨500, jsonFail e⟩, [.pinFile f.originalname])
      | .ok attrs =>
        let metadata : JVal := .obj
          [("name", .str (valueOr name "Untitled NFT")),
           ("description", .str (valueOr description "No description provided")),
           ("image", .str ("ipfs://" ++ imageCid)),
           ("attributes", attrs)]
        match uploadJSON with
        | .error e => (⟨500, jsonFail e⟩, [.pinFile f.originalname, .pinJSON metadata])
        | .ok metadataCid =>
          (⟨200, .obj [("success", .bool true), ("imageCid", .str imageCid),
                       ("metadataCid", .str metadataCid),
                       ("metadataUri", .str ("ipfs://" ++ metadataCid)),
                       ("metadata", metadata)]⟩,
           [.pinFile f.originalname, .pinJSON metadata])

/-- GET /token/:tokenId (both variants): `contract.tokenURI(tokenId)`; any
thrown error (including the revert on an unknown id) becomes
`500 {success:false, error}`. -/
def tokenHandler (tokenId : String) (uriOutcome : Except String String) :
    HttpResponse :=
  match uriOutcome with
  | .ok uri =>
    ⟨200, .obj [("success", .bool true), ("tokenId", .str tokenId),
                ("uri", .str uri)]⟩
  | .error e => ⟨500, jsonFail e⟩

/-! ## Composing requests against the ledger (for the idempotency claim) -/

/-- The contract calls among an effect list, in order. -/
def ledgerCallsOf (effs : List Effect) : List LedgerCall :=
  effs.filterMap fun e =>
    match e with
    | .ledger c => some c
    | _ => none

/-- Apply a sequence of confirmed calls to the ledger. -/
def runCalls (st : Chain) (cs : List LedgerCall) : Chain :=
  cs.foldl applyCall st

/-- The content reference a call submits. -/
def LedgerCall.ref : LedgerCall → String
  | .safeMint _ uri _ => uri
  | .commitEvolution _ uri _ => uri

/-- The hash argument a call submits alongside its reference. -/
def LedgerCall.hashArg : LedgerCall → List Nat
  | .safeMint _ _ h => h
  | .commitEvolution _ _ h => h

/-- Observation point for the post-receipt phase of a create: the hash the
ledger now records for the minted token is available as `ledgerHash`. The
code reads nothing back from the ledger after `tx.wait()` — `mintNFT` goes
straight from the receipt to the success object — so the result is
`mintNFT` applied to the other arguments, with `ledgerHash` unused. -/
def mintConfirm (toAddr uri tx : String) (receipt : Receipt)
    (ledgerHash : List Nat) : MintResult :=
  mintNFT toAddr uri tx receipt

/-! ## Helper lemmas -/

/-- The digest is always exactly 32 bytes: the squeeze concatenates four
8-byte lane serializations. -/
theorem hashBinder_length (s : String) : (hashBinder s).length = 32 := by
  simp [hashBinder, keccak256, squeeze, laneToBytes]

/-! ## Claim theorems -/

/-- C1: every create or update call the code constructs pairs the submitted
reference with `hashBinder` of that same reference, and applying any such
call to a ledger satisfying the anchoring invariant (stored hash =
`hashBinder` of stored reference, for every record) preserves the
invariant. -/
theorem C1_writes_bind_hash (st : Chain) (c : LedgerCall)
    (hc : CodeCall c) (hinv : ChainInv st) :
    c.hashArg = hashBinder c.ref ∧ ChainInv (applyCall st c) := by
  rcases hc with ⟨toAddr, uri, rfl⟩ | ⟨tid, uri, rfl⟩
  · refine ⟨rfl, ?_⟩
    intro r hr
    simp only [mintCall, applyCall, List.mem_append, List.mem_singleton] at hr
    rcases hr with hr | hr
    · exact hinv r hr
    · subst hr; rfl
  · refine ⟨rfl, ?_⟩
    intro r hr
    simp only [evolveCall, applyCall, List.mem_map] at hr
    rcases hr with ⟨r0, hr0, rfl⟩
    by_cases h : r0.tokenId = tid
    · simp [h]
    · simp [h]
      exact hinv r0 hr0

/-- Witness for C1 at a concrete input: the empty ledger and the mint call
for the spec's scenario A. -/
theorem C1_witness :
    (mintCall "0xABC" "ipfs://Qm123").hashArg =
      hashBinder (mintCall "0xABC" "ipfs://Qm123").ref ∧
    ChainInv (applyCall chain0 (mintCall "0xABC" "ipfs://Qm123")) :=
  C1_writes_bind_hash chain0 (mintCall "0xABC" "ipfs://Qm123")
    (Or.inl ⟨"0xABC", "ipfs://Qm123", rfl⟩)
    (by intro r hr; simp [chain0] at hr)

/-- C2 as stated is false on the code: take a confirmed mint of
`ipfs://Qm123` whose receipt is in hand while the ledger records a hash
(here the degenerate `[]`, which cannot equal the 32-byte `hashBinder`
output) different from the locally bound one; `mintNFT` still resolves with
`success: true` — the mismatch is silently accepted, and no HashMismatch
outcome exists anywhere in the code. -/
theorem C2_counterexample :
    ([] : List Nat) ≠ hashBinder "ipfs://Qm123" ∧
    (mintConfirm "0xABC" "ipfs://Qm123" "0xfeed" ⟨[]⟩ []).success = true := by
  constructor
  · intro h
    have h2 := congrArg List.length h
    rw [hashBinder_length] at h2
    simp at h2
  · rfl

/-- C2 amended: after the receipt is received the code performs no
verification at all of the hash recorded on the ledger — the create result
is independent of the on-ledger hash and always succeeds, and the evolve
handler likewise reports plain success whenever the transaction completed. -/
theorem C2_no_post_receipt_check (toAddr uri tx : String) (receipt : Receipt)
    (h₁ h₂ : List Nat) (tid uri2 tx2 : String)
    (huri : falsy (some uri2) = false) :
    mintConfirm toAddr uri tx receipt h₁ = mintConfirm toAddr uri tx receipt h₂ ∧
    (mintConfirm toAddr uri tx receipt h₁).success = true ∧
    (evolveHandlerV2 tid ⟨some uri2⟩ (.ok tx2)).1.status = 200 := by
  refine ⟨rfl, rfl, ?_⟩
  simp [evolveHandlerV2, huri]

/-- Witness for C2's amended theorem at the spec's scenario B inputs. -/
theorem C2_witness :
    mintConfirm "0xABC" "ipfs://Qm123" "0xfeed" ⟨[]⟩ [0] =
      mintConfirm "0xABC" "ipfs://Qm123" "0xfeed" ⟨[]⟩ [1] ∧
    (mintConfirm "0xABC" "ipfs://Qm123" "0xfeed" ⟨[]⟩ [0]).success = true ∧
    (evolveHandlerV2 "1" ⟨some "ipfs://Qm999"⟩ (.ok "0xbeef")).1.status = 200 :=
  C2_no_post_receipt_check "0xABC" "ipfs://Qm123" "0xfeed" ⟨[]⟩ [0] [1]
    "1" "ipfs://Qm999" "0xbeef" rfl

/-- C3 as stated is false on the `src/index.js` variant: a valid mint whose
submission confirms answers 200, but its body has no `tokenId` member at
all (that handler responds `{success, txHash, metadataUri}`). -/
theorem C3_counterexample :
    (mintHandlerV1 ⟨some "0xABC", some "ipfs://Qm123"⟩ (.ok "0xfeed")).1.status = 200 ∧
    (mintHandlerV1 ⟨some "0xABC", some "ipfs://Qm123"⟩
        (.ok "0xfeed")).1.body.getField "tokenId" = none := by
  exact ⟨rfl, rfl⟩

/-- C3 amended: the `part_000` variant answers a confirmed valid mint with
200 and `{success:true, txHash, tokenId, metadataUri}` where `tokenId` is
the value decoded from the receipt's Transfer event; the `src/index.js`
variant answers 200 with `{success:true, txHash, metadataUri}` and omits
`tokenId`. -/
theorem C3_mint_response (toAddr uri tx : String) (receipt : Receipt) (l : Log)
    (hto : falsy (some toAddr) = false) (huri : falsy (some uri) = false)
    (hev : findTransfer receipt.logs = some l) :
    mintHandlerV2 ⟨some toAddr, some uri⟩ (.ok (tx, receipt)) =
      (⟨200, .obj [("success", .bool true), ("txHash", .str tx),
                   ("tokenId", .str (toString l.argsTokenId)),
                   ("metadataUri", .str uri)]⟩,
       [.ledger (mintCall toAddr uri)]) ∧
    mintHandlerV1 ⟨some toAddr, some uri⟩ (.ok tx) =
      (⟨200, .obj [("success", .bool true), ("txHash", .str tx),
                   ("metadataUri", .str uri)]⟩,
       [.ledger (mintCall toAddr uri)]) := by
  constructor
  · simp [mintHandlerV2, hto, huri, mintNFT, hev, MintResult.toJVal]
  · simp [mintHandlerV1, hto, huri]

/-- Witness for C3's amended theorem: scenario A's inputs, with a receipt
carrying the Transfer event for token 1. -/
theorem C3_witness :
    mintHandlerV2 ⟨some "0xABC", some "ipfs://Qm123"⟩
        (.ok ("0xfeed", ⟨[⟨some "Transfer", 1⟩]⟩)) =
      (⟨200, .obj [("success", .bool true), ("txHash", .str "0xfeed"),
                   ("tokenId", .str "1"),
                   ("metadataUri", .str "ipfs://Qm123")]⟩,
       [.ledger (mintCall "0xABC" "ipfs://Qm123")]) ∧
    mintHandlerV1 ⟨some "0xABC", some "ipfs://Qm123"⟩ (.ok "0xfeed") =
      (⟨200, .obj [("success", .bool true), ("txHash", .str "0xfeed"),
                   ("metadataUri", .str "ipfs://Qm123")]⟩,
       [.ledger (mintCall "0xABC" "ipfs://Qm123")]) :=
  C3_mint_response "0xABC" "ipfs://Qm123" "0xfeed" ⟨[⟨some "Transfer", 1⟩]⟩
    ⟨some "Transfer", 1⟩ rfl rfl rfl

/-- C4 as stated is false on the `src/index.js` variant: its
/evolve/:tokenId handler is a multipart handler that never reads
`metadataUri`; a request without that field but with a file attached is
answered 200 after an image upload, a metadata upload and a ledger
submission have all been performed. -/
theorem C4_counterexample :
    (evolveHandlerV1 "1" (some ⟨"img.png"⟩) none (.ok "QmImg")
        (fun _ => .error "unused") (.ok "QmMeta") (.ok "0xfeed")).1.status = 200 ∧
    (evolveHandlerV1 "1" (some ⟨"img.png"⟩) none (.ok "QmImg")
        (fun _ => .error "unused") (.ok "QmMeta") (.ok "0xfeed")).2 =
      [.pinFile "img.png",
       .pinJSON (.obj [("name", .str "Evolved NFT #1"),
                       ("description", .str "This NFT has evolved via AI."),
                       ("image", .str "ipfs://QmImg"),
                       ("attributes", .obj [])]),
       .ledger (evolveCall "1" "ipfs://QmMeta")] := by
  exact ⟨rfl, rfl⟩

/-- C4 amended: the `part_000` JSON variant behaves as claimed — a missing
`metadataUri` is answered 400 before any ledger work, and a confirmed
update echoes the given `tokenId` and `metadataUri` — while the
`src/index.js` multipart variant ignores `metadataUri` entirely and
responds `{success:true, txHash, imageCid, metadataCid}`. -/
theorem C4_evolve_response (tid : String) (req : EvolveRequest)
    (outcome : Except String String) (tid2 uri2 tx2 : String)
    (hmissing : falsy req.metadataUri = true)
    (huri2 : falsy (some uri2) = false) :
    evolveHandlerV2 tid req outcome =
      (⟨400, jsonErr "metadataUri is required"⟩, []) ∧
    evolveHandlerV2 tid2 ⟨some uri2⟩ (.ok tx2) =
      (⟨200, .obj [("success", .bool true), ("txHash", .str tx2),
                   ("tokenId", .str tid2), ("metadataUri", .str uri2)]⟩,
       [.ledger (evolveCall tid2 uri2)]) := by
  constructor
  · simp [evolveHandlerV2, hmissing]
  · simp [evolveHandlerV2, huri2]

/-- Witness for C4's amended theorem: scenario B's inputs and an empty
body. -/
theorem C4_witness :
    evolveHandlerV2 "1" ⟨none⟩ (.ok "0xfeed") =
      (⟨400, jsonErr "metadataUri is required"⟩, []) ∧
    evolveHandlerV2 "1" ⟨some "ipfs://Qm999"⟩ (.ok "0xbeef") =
      (⟨200, .obj [("success", .bool true), ("txHash", .str "0xbeef"),
                   ("tokenId", .str "1"), ("metadataUri", .str "ipfs://Qm999")]⟩,
       [.ledger (evolveCall "1" "ipfs://Qm999")]) :=
  C4_evolve_response "1" ⟨none⟩ (.ok "0xfeed") "1" "ipfs://Qm999" "0xbeef" rfl rfl

/-- C5 as stated is false on the code: a create whose transaction confirms
with no Transfer event in the receipt's log list resolves successfully with
the placeholder identifier `"unknown"`; no ParseError failure exists. -/
theorem C5_counterexample :
    mintNFT "0xABC" "ipfs://Qm123" "0xfeed" ⟨[]⟩ =
      ⟨true, "0xfeed", "unknown", "ipfs://Qm123"⟩ := rfl

/-- C5 amended: when the receipt's log list has no Transfer event,
`mintNFT` succeeds with `tokenId` the default placeholder string
`"unknown"` instead of failing with a ParseError. -/
theorem C5_unknown_placeholder (toAddr uri tx : String) (receipt : Receipt)
    (h : findTransfer receipt.logs = none) :
    mintNFT toAddr uri tx receipt = ⟨true, tx, "unknown", uri⟩ := by
  simp [mintNFT, h]

/-- Witness for C5's amended theorem: a receipt whose only log is not a
Transfer event. -/
theorem C5_witness :
    mintNFT "0xABC" "ipfs://Qm123" "0xfeed" ⟨[⟨some "Approval", 7⟩]⟩ =
      ⟨true, "0xfeed", "unknown", "ipfs://Qm123"⟩ :=
  C5_unknown_placeholder "0xABC" "ipfs://Qm123" "0xfeed" ⟨[⟨some "Approval", 7⟩]⟩ rfl

/-- C6 as stated is false on the code: two identical valid create requests,
the second arriving while the first is unconfirmed, each start their own
ledger submission (the handler consults no in-flight state), and confirming
both produces two records with distinct identifiers, not one. -/
theorem C6_counterexample :
    (ledgerCallsOf
        ((mintHandlerV2 ⟨some "0xABC", some "ipfs://Qm123"⟩
            (.ok ("0xaaa", ⟨[⟨some "Transfer", 1⟩]⟩))).2 ++
         (mintHandlerV2 ⟨some "0xABC", some "ipfs://Qm123"⟩
            (.ok ("0xbbb", ⟨[⟨some "Transfer", 2⟩]⟩))).2)).length = 2 ∧
    (runCalls chain0 (ledgerCallsOf
        ((mintHandlerV2 ⟨some "0xABC", some "ipfs://Qm123"⟩
            (.ok ("0xaaa", ⟨[⟨some "Transfer", 1⟩]⟩))).2 ++
         (mintHandlerV2 ⟨some "0xABC", some "ipfs://Qm123"⟩
            (.ok ("0xbbb", ⟨[⟨some "Transfer", 2⟩]⟩))).2))).minted.map
      (fun r => r.tokenId) = ["1", "2"] := by
  exact ⟨rfl, rfl⟩

/-- C6 amended: the backend has no in-flight registry — every valid mint
request unconditionally performs exactly one ledger submission of its own,
whatever other identical operations are outstanding, so duplicates
submitted while the original is in flight yield as many submissions and
record identifiers as requests. -/
theorem C6_every_valid_mint_submits (req : MintRequest)
    (outcome : Except String (String × Receipt))
    (hto : falsy req.toAddr = false) (huri : falsy req.metadataUri = false) :
    (mintHandlerV2 req outcome).2 =
      [.ledger (mintCall (req.toAddr.getD "") (req.metadataUri.getD ""))] := by
  cases outcome with
  | error e => simp [mintHandlerV2, hto, huri]
  | ok p => cases p with
    | mk tx receipt => simp [mintHandlerV2, hto, huri]

/-- Witness for C6's amended theorem: the duplicate request of the
counterexample submits exactly its own mint call. -/
theorem C6_witness :
    (mintHandlerV2 ⟨some "0xABC", some "ipfs://Qm123"⟩
        (.ok ("0xbbb", ⟨[⟨some "Transfer", 2⟩]⟩))).2 =
      [.ledger (mintCall "0xABC" "ipfs://Qm123")] :=
  C6_every_valid_mint_submits ⟨some "0xABC", some "ipfs://Qm123"⟩
    (.ok ("0xbbb", ⟨[⟨some "Transfer", 2⟩]⟩)) rfl rfl

/-- C7 as stated is false on the code: the mint handler's validation
failure body is `{error: ...}` with no `success` member at all, and an
unknown record identifier on GET /token yields status 500 (the catch-all),
not a 404-equivalent. -/
theorem C7_counterexample :
    (mintHandlerV1 ⟨none, none⟩ (.ok "0xfeed")).1.body.getField "success" = none ∧
    (mintHandlerV1 ⟨none, none⟩ (.ok "0xfeed")).1.status = 400 ∧
    (tokenHandler "42" (.error "execution reverted")).status = 500 := by
  exact ⟨rfl, rfl, rfl⟩

/-- C7 amended: mint failures (400 validation and 500 on a thrown error)
carry only `{error: message}` with no `success:false` member; the token and
evolve handlers do answer failures with `{success:false, error}`, but
always with status 500 whatever the error category — in particular an
unknown id on GET /token is a 500, not a 404. -/
theorem C7_failure_shapes (req req2 : MintRequest)
    (o : Except String String) (e tid e2 tid2 uri2 e3 : String)
    (hval : (falsy req.toAddr || falsy req.metadataUri) = true)
    (hto : falsy req2.toAddr = false) (huri : falsy req2.metadataUri = false)
    (huri2 : falsy (some uri2) = false) :
    (mintHandlerV1 req o).1 = ⟨400, jsonErr "to and metadataUri are required"⟩ ∧
    (mintHandlerV1 req2 (.error e)).1 = ⟨500, jsonErr e⟩ ∧
    (jsonErr e).getField "success" = none ∧
    tokenHandler tid (.error e2) = ⟨500, jsonFail e2⟩ ∧
    (evolveHandlerV2 tid2 ⟨some uri2⟩ (.error e3)).1 = ⟨500, jsonFail e3⟩ := by
  refine ⟨?_, ?_, rfl, rfl, ?_⟩
  · simp [mintHandlerV1, hval]
  · simp [mintHandlerV1, hto, huri]
  · simp [evolveHandlerV2, huri2]

/-- Witness for C7's amended theorem: a bodiless mint, a reverted mint, a
failing token read and a failing evolve, at concrete inputs. -/
theorem C7_witness :
    (mintHandlerV1 ⟨none, none⟩ (.ok "0xfeed")).1 =
      ⟨400, jsonErr "to and metadataUri are required"⟩ ∧
    (mintHandlerV1 ⟨some "0xABC", some "ipfs://Qm123"⟩
        (.error "execution reverted")).1 = ⟨500, jsonErr "execution reverted"⟩ ∧
    (jsonErr "execution reverted").getField "success" = none ∧
    tokenHandler "42" (.error "call revert exception") =
      ⟨500, jsonFail "call revert exception"⟩ ∧
    (evolveHandlerV2 "1" ⟨some "ipfs://Qm999"⟩ (.error "nonce too low")).1 =
      ⟨500, jsonFail "nonce too low"⟩ :=
  C7_failure_shapes ⟨none, none⟩ ⟨some "0xABC", some "ipfs://Qm123"⟩
    (.ok "0xfeed") "execution reverted" "42" "call revert exception"
    "1" "ipfs://Qm999" "nonce too low" rfl rfl rfl rfl

/-- C8: `hashBinder` is a pure function of the UTF-8 encoding of its input
alone — any two strings with the same encoding get the identical digest —
and the digest always has the fixed width of 32 bytes; determinism across
calls and processes holds because the definition is a total function with
no other inputs. -/
theorem C8_hashBinder_pure (s₁ s₂ : String)
    (h : utf8Encode s₁ = utf8Encode s₂) :
    hashBinder s₁ = hashBinder s₂ ∧ (hashBinder s₁).length = 32 := by
  constructor
  · unfold hashBinder
    rw [h]
  · exact hashBinder_length s₁

/-- Witness for C8 at scenario A's reference string. -/
theorem C8_witness :
    hashBinder "ipfs://Qm123" = hashBinder "ipfs://Qm123" ∧
    (hashBinder "ipfs://Qm123").length = 32 :=
  C8_hashBinder_pure "ipfs://Qm123" "ipfs://Qm123" rfl

/-- C9 as stated is false on the code: a multipart upload whose
`attributes` field is not valid JSON does trigger a side effect — the image
is uploaded to the store first, and only then does `JSON.parse` throw,
yielding a 500 with the image upload already performed. -/
theorem C9_counterexample :
    (uploadImageHandler (some ⟨"cat.png"⟩) none none (some "not json")
        (.ok "QmImg") (fun _ => .error "Unexpected token") (.ok "QmMeta")).1.status = 500 ∧
    (uploadImageHandler (some ⟨"cat.png"⟩) none none (some "not json")
        (.ok "QmImg") (fun _ => .error "Unexpected token") (.ok "QmMeta")).2 =
      [.pinFile "cat.png"] := by
  exact ⟨rfl, rfl⟩

/-- C9 amended: only the presence of the uploaded file is checked before
any store work; the `attributes` field is parsed only after the image has
been uploaded, so a request whose `attributes` is not valid JSON fails with
500 with exactly the image upload already performed. -/
theorem C9_parse_after_upload (f : FileUpload) (nm d : Option String)
    (a cid e : String) (pj : String → Except String JVal)
    (uj : Except String String)
    (ha : falsy (some a) = false) (hp : pj a = .error e) :
    uploadImageHandler (some f) nm d (some a) (.ok cid) pj uj =
      (⟨500, jsonFail e⟩, [.pinFile f.originalname]) := by
  simp [uploadImageHandler, attrsValue, ha, hp]

/-- Witness for C9's amended theorem at the counterexample's inputs. -/
theorem C9_witness :
    uploadImageHandler (some ⟨"cat.png"⟩) none none (some "not json")
        (.ok "QmImg") (fun _ => .error "Unexpected token") (.ok "QmMeta") =
      (⟨500, jsonFail "Unexpected token"⟩, [.pinFile "cat.png"]) :=
  C9_parse_after_upload ⟨"cat.png"⟩ none none "not json" "QmImg"
    "Unexpected token" (fun _ => .error "Unexpected token") (.ok "QmMeta") rfl rfl

/-- C10: a POST /upload-image request carrying no file is answered 400 with
an error body, and the handler performs no store call at all — neither an
image upload nor a metadata upload. -/
theorem C10_no_file_no_upload (nm d a : Option String)
    (ui : Except String String) (pj : String → Except String JVal)
    (uj : Except String String) :
    uploadImageHandler none nm d a ui pj uj =
      (⟨400, jsonErr "No file uploaded. Field name must be 'file'."⟩, []) := rfl

end MarketFace
